import Mathlib

/-!
# Verification of the `mlt_frame.h` frame interface

Shallow embedding of `src/src/framework/mlt_frame.h` (MLT framework).

Conventions of the embedding:

* C `int` arithmetic is modelled by `Int`.  For every quantity appearing in
  the conversion macros with 8-bit-scale inputs the intermediate products stay
  far below `2^31`, so mathematical integers agree with C `int`.
* The C right shift `>> 10` on a (possibly negative) `int` is an arithmetic
  shift, i.e. floor division by `1024`.  Lean's `Int` division `/` is
  `Int.ediv`, which coincides with floor division for a positive divisor, so
  `e >> 10` is embedded as `e / 1024`.
* The repository source under `src/` contains only the header
  `mlt_frame.h`; the color-conversion macros and the struct layout are
  transcribed from it directly.  Functions whose implementation file is not
  part of the source tree (`mlt_frame.c`, `mlt_deque.c`) are modelled from
  the specification text; each such definition says so in its doc comment.
-/

namespace Mlt

/-! ## Color-space conversion macros (mlt_frame.h, lines 134-159)

Each macro is a sequence of C assignment statements; the embedding gives one
definition per assigned variable, plus a triple-valued wrapper per macro. -/

/-- `RGB2YUV` macro, `y` assignment: `y = ((263*r + 516*g + 100*b) >> 10) + 16`. -/
def rgb2yuv_y (r g b : Int) : Int := (263 * r + 516 * g + 100 * b) / 1024 + 16

/-- `RGB2YUV` macro, `u` assignment: `u = ((-152*r - 298*g + 450*b) >> 10) + 128`. -/
def rgb2yuv_u (r g b : Int) : Int := (-152 * r - 298 * g + 450 * b) / 1024 + 128

/-- `RGB2YUV` macro, `v` assignment: `v = ((450*r - 377*g - 73*b) >> 10) + 128`. -/
def rgb2yuv_v (r g b : Int) : Int := (450 * r - 377 * g - 73 * b) / 1024 + 128

/-- The `RGB2YUV` macro: scales full-range RGB into the YUV gamut. -/
def RGB2YUV (r g b : Int) : Int × Int × Int :=
  (rgb2yuv_y r g b, rgb2yuv_u r g b, rgb2yuv_v r g b)

/-- `RGB2YUV_UNSCALED` macro, `y` before the clamp statements:
`y = (299*r + 587*g + 114*b) >> 10`. -/
def rgb2yuv_unscaled_y_pre (r g b : Int) : Int := (299 * r + 587 * g + 114 * b) / 1024

/-- `RGB2YUV_UNSCALED` macro, `u` before the clamp statements:
`u = ((-169*r - 331*g + 500*b) >> 10) + 128`. -/
def rgb2yuv_unscaled_u_pre (r g b : Int) : Int :=
  (-169 * r - 331 * g + 500 * b) / 1024 + 128

/-- `RGB2YUV_UNSCALED` macro, `v` before the clamp statements:
`v = ((500*r - 419*g - 81*b) >> 10) + 128`. -/
def rgb2yuv_unscaled_v_pre (r g b : Int) : Int :=
  (500 * r - 419 * g - 81 * b) / 1024 + 128

/-- The clamp statement pair of `RGB2YUV_UNSCALED`:
`x = x < lo ? lo : x; x = x > hi ? hi : x`. -/
def clampLoHi (lo hi x : Int) : Int :=
  let x := if x < lo then lo else x
  if x > hi then hi else x

/-- The `RGB2YUV_UNSCALED` macro: converts pre-scaled broadcast-range RGB and
clamps luma to `[16,235]`, chroma to `[16,240]`. -/
def RGB2YUV_UNSCALED (r g b : Int) : Int × Int × Int :=
  (clampLoHi 16 235 (rgb2yuv_unscaled_y_pre r g b),
   clampLoHi 16 240 (rgb2yuv_unscaled_u_pre r g b),
   clampLoHi 16 240 (rgb2yuv_unscaled_v_pre r g b))

/-- `YUV2RGB` macro, `r` before the clamp:
`r = (1192*(y-16) + 1634*(v-128)) >> 10`. -/
def yuv2rgb_r_pre (y u v : Int) : Int :=
  (1192 * (y - 16) + 1634 * (v - 128)) / 1024

/-- `YUV2RGB` macro, `g` before the clamp:
`g = (1192*(y-16) - 832*(v-128) - 400*(u-128)) >> 10`. -/
def yuv2rgb_g_pre (y u v : Int) : Int :=
  (1192 * (y - 16) - 832 * (v - 128) - 400 * (u - 128)) / 1024

/-- `YUV2RGB` macro, `b` before the clamp:
`b = (1192*(y-16) + 2066*(u-128)) >> 10`. -/
def yuv2rgb_b_pre (y u v : Int) : Int :=
  (1192 * (y - 16) + 2066 * (u - 128)) / 1024

/-- The clamp statement of `YUV2RGB`: `x = x < 0 ? 0 : x > 255 ? 255 : x`. -/
def clamp255 (x : Int) : Int := if x < 0 then 0 else if x > 255 then 255 else x

/-- The `YUV2RGB` macro: converts YUV to RGB, each channel clamped to `[0,255]`. -/
def YUV2RGB (y u v : Int) : Int × Int × Int :=
  (clamp255 (yuv2rgb_r_pre y u v),
   clamp255 (yuv2rgb_g_pre y u v),
   clamp255 (yuv2rgb_b_pre y u v))

/-- YUV output of `RGB2YUV` lies in the gamut `y ∈ [16,235]`, `u,v ∈ [16,240]`
claimed broadcast-legal by the spec. -/
def inGamut (yuv : Int × Int × Int) : Prop :=
  16 ≤ yuv.1 ∧ yuv.1 ≤ 235 ∧ 16 ≤ yuv.2.1 ∧ yuv.2.1 ≤ 240 ∧
    16 ≤ yuv.2.2 ∧ yuv.2.2 ≤ 240

instance (yuv : Int × Int × Int) : Decidable (inGamut yuv) := by
  unfold inGamut; infer_instance

/-- `RGB2YUV` followed by `YUV2RGB`: the round trip the spec discusses. -/
def roundtrip (r g b : Int) : Int × Int × Int :=
  YUV2RGB (RGB2YUV r g b).1 (RGB2YUV r g b).2.1 (RGB2YUV r g b).2.2

/-! ## Audio sample-count arithmetic (mlt_frame.h, lines 129-130)

Only the declarations of `mlt_sample_calculator` and
`mlt_sample_calculator_to_now` are in the source tree; their implementation
file `mlt_frame.c` is absent, so the bodies are modelled from the
specification.  The frame rate is modelled as a rational number. -/

/-- Modelled from the spec: the body of `mlt_sample_calculator_to_now`
(declared at mlt_frame.h line 130, implementation `mlt_frame.c` not in the
source tree) — "A variant computes cumulative samples elapsed 'to now'
(through the end of the given position)": the number of whole samples whose
time lies before the end of frame `position`, i.e. before
`(position + 1) / fps` seconds. -/
def mlt_sample_calculator_to_now (fps : ℚ) (frequency : Int) (position : Int) : Int :=
  ⌊((position : ℚ) + 1) * (frequency : ℚ) / fps⌋

/-- Modelled from the spec: the body of `mlt_sample_calculator` (declared at
mlt_frame.h line 129, implementation `mlt_frame.c` not in the source tree) —
"the integer number of audio samples that belong to that video frame …
implemented via a cumulative-total-then-difference technique, not per-frame
rounding": the cumulative total through this position minus the cumulative
total through the previous one. -/
def mlt_sample_calculator (fps : ℚ) (frequency : Int) (position : Int) : Int :=
  mlt_sample_calculator_to_now fps frequency position -
    mlt_sample_calculator_to_now fps frequency (position - 1)

/-! ## The frame structure and its three operation stacks
(mlt_frame.h, lines 62-92)

`struct mlt_frame_s` holds the parent properties, three callback hooks and
three stacks `stack_image`, `stack_audio`, `stack_service`.  The stack entries
are untyped (`void *` / encoded ints) in C; the embedding takes the entry
type as a parameter `ι`.  The `mlt_deque` used for the stacks and the bodies
of the push/pop functions are not in the source tree, so the operations are
modelled from the specification (§4.1: `push(entry)` appends to the top;
`pop() -> entry` removes and returns the top, fails with `EmptyStack` —
returned as the sentinel `none`, C `NULL` — if none remain). -/

/-- An operation stack: a LIFO sequence, top at the head. -/
abbrev Stack (ι : Type) : Type := List ι

/-- Modelled from the spec (§4.1): `push(entry)` appends to the top. -/
def Stack.push {ι : Type} (s : Stack ι) (x : ι) : Stack ι := x :: s

/-- Modelled from the spec (§4.1): `pop()` removes and returns the top entry,
or signals `EmptyStack` (the `none` sentinel, C `NULL`) when none remain;
the stack is left unchanged in that case. -/
def Stack.pop {ι : Type} (s : Stack ι) : Option ι × Stack ι :=
  match s with
  | [] => (none, s)
  | x :: xs => (some x, xs)

/-- Push the entries of `xs` in order (first element pushed first). -/
def Stack.pushMany {ι : Type} (s : Stack ι) (xs : List ι) : Stack ι :=
  xs.foldl Stack.push s

/-- Pop `n` times, collecting the `n` results (sentinel included) in order. -/
def Stack.popMany {ι : Type} : Nat → Stack ι → List (Option ι) × Stack ι
  | 0, s => ([], s)
  | n + 1, s =>
    let p := s.pop
    let q := Stack.popMany n p.2
    (p.1 :: q.1, q.2)

/-- `struct mlt_frame_s` (mlt_frame.h lines 62-92): parent properties (left
abstract as type `π`), the three callback-hook function pointers (left
abstract as nullable values of type `κ`), and the three operation stacks
over entry type `ι`. -/
structure mlt_frame_s (π κ ι : Type) where
  parent : π
  get_alpha_mask_hook : Option κ
  convert_image_hook : Option κ
  convert_audio_hook : Option κ
  stack_image : Stack ι
  stack_audio : Stack ι
  stack_service : Stack ι

/-- Modelled from the spec: `mlt_frame_push_get_image` (declared at
mlt_frame.h line 114, body not in the source tree) pushes an image-operation
entry on `stack_image`. -/
def mlt_frame_push_get_image {π κ ι : Type} (f : mlt_frame_s π κ ι) (cb : ι) :
    mlt_frame_s π κ ι :=
  { f with stack_image := f.stack_image.push cb }

/-- Modelled from the spec: `mlt_frame_pop_get_image` (declared at
mlt_frame.h line 115, body not in the source tree) pops `stack_image`,
returning `none` (C `NULL`) when the stack is empty. -/
def mlt_frame_pop_get_image {π κ ι : Type} (f : mlt_frame_s π κ ι) :
    Option ι × mlt_frame_s π κ ι :=
  (f.stack_image.pop.1, { f with stack_image := f.stack_image.pop.2 })

/-- Modelled from the spec: `mlt_frame_push_audio` (declared at mlt_frame.h
line 124, body not in the source tree) pushes on `stack_audio`. -/
def mlt_frame_push_audio {π κ ι : Type} (f : mlt_frame_s π κ ι) (that : ι) :
    mlt_frame_s π κ ι :=
  { f with stack_audio := f.stack_audio.push that }

/-- Modelled from the spec: `mlt_frame_pop_audio` (declared at mlt_frame.h
line 125, body not in the source tree) pops `stack_audio`. -/
def mlt_frame_pop_audio {π κ ι : Type} (f : mlt_frame_s π κ ι) :
    Option ι × mlt_frame_s π κ ι :=
  (f.stack_audio.pop.1, { f with stack_audio := f.stack_audio.pop.2 })

/-- Modelled from the spec: `mlt_frame_push_service` (declared at mlt_frame.h
line 118, body not in the source tree) pushes on `stack_service`. -/
def mlt_frame_push_service {π κ ι : Type} (f : mlt_frame_s π κ ι) (that : ι) :
    mlt_frame_s π κ ι :=
  { f with stack_service := f.stack_service.push that }

/-- Modelled from the spec: `mlt_frame_pop_service` (declared at mlt_frame.h
line 119, body not in the source tree) pops `stack_service`. -/
def mlt_frame_pop_service {π κ ι : Type} (f : mlt_frame_s π κ ι) :
    Option ι × mlt_frame_s π κ ι :=
  (f.stack_service.pop.1, { f with stack_service := f.stack_service.pop.2 })

/-- Push a list of entries on the image stack in order. -/
def pushImageMany {π κ ι : Type} (f : mlt_frame_s π κ ι) (xs : List ι) :
    mlt_frame_s π κ ι :=
  xs.foldl mlt_frame_push_get_image f

/-- Pop the image stack `n` times, collecting the results in order. -/
def popImageMany {π κ ι : Type} : Nat → mlt_frame_s π κ ι →
    List (Option ι) × mlt_frame_s π κ ι
  | 0, f => ([], f)
  | n + 1, f =>
    let p := mlt_frame_pop_get_image f
    let q := popImageMany n p.2
    (p.1 :: q.1, q.2)

/-- Push a list of entries on the audio stack in order. -/
def pushAudioMany {π κ ι : Type} (f : mlt_frame_s π κ ι) (xs : List ι) :
    mlt_frame_s π κ ι :=
  xs.foldl mlt_frame_push_audio f

/-- Pop the audio stack `n` times, collecting the results in order. -/
def popAudioMany {π κ ι : Type} : Nat → mlt_frame_s π κ ι →
    List (Option ι) × mlt_frame_s π κ ι
  | 0, f => ([], f)
  | n + 1, f =>
    let p := mlt_frame_pop_audio f
    let q := popAudioMany n p.2
    (p.1 :: q.1, q.2)

/-- Push a list of entries on the service stack in order. -/
def pushServiceMany {π κ ι : Type} (f : mlt_frame_s π κ ι) (xs : List ι) :
    mlt_frame_s π κ ι :=
  xs.foldl mlt_frame_push_service f

/-- Pop the service stack `n` times, collecting the results in order. -/
def popServiceMany {π κ ι : Type} : Nat → mlt_frame_s π κ ι →
    List (Option ι) × mlt_frame_s π κ ι
  | 0, f => ([], f)
  | n + 1, f =>
    let p := mlt_frame_pop_service f
    let q := popServiceMany n p.2
    (p.1 :: q.1, q.2)

/-! ## Alpha-mask retrieval (mlt_frame.h, lines 66-70 and 110)

`mlt_frame_get_alpha_mask` is declared in the header; its body is not in the
source tree, so it is modelled from the specification (§4.2): "returns an
8-bit-per-pixel mask sized to the frame's image dimensions; if no alpha data
exists, returns a fully-opaque synthesized mask (never null)". -/

/-- The image-related state of a frame that alpha-mask retrieval consults:
the image dimensions and the optionally present stored alpha channel. -/
structure FrameImageState where
  width : Nat
  height : Nat
  alpha : Option (List Nat)

/-- Modelled from the spec: `mlt_frame_get_alpha_mask` (declared at
mlt_frame.h line 110, body not in the source tree) — returns the frame's
stored 8-bit alpha channel when present, otherwise synthesizes a fully-opaque
mask (every byte `255`) of `width * height` bytes; it never returns the
C `NULL` sentinel (totality of this function). -/
def mlt_frame_get_alpha_mask (f : FrameImageState) : List Nat :=
  match f.alpha with
  | some a => a
  | none => List.replicate (f.width * f.height) 255

/-- A freshly initialized frame over concrete parameter types: all three
operation stacks empty, no hooks installed (used for concrete witnesses). -/
def testFrame : mlt_frame_s Unit Unit Nat :=
  { parent := ()
    get_alpha_mask_hook := none
    convert_image_hook := none
    convert_audio_hook := none
    stack_image := []
    stack_audio := []
    stack_service := [] }

/-- A frame agreeing with `testFrame` on `stack_image` only: its audio and
service stacks are nonempty (used to witness that image operations do not
read the other two stacks). -/
def otherImageFrame : mlt_frame_s Unit Unit Nat :=
  { testFrame with stack_audio := [7], stack_service := [8] }

/-- A frame agreeing with `testFrame` on `stack_audio` only: its image and
service stacks are nonempty. -/
def otherAudioFrame : mlt_frame_s Unit Unit Nat :=
  { testFrame with stack_image := [7], stack_service := [8] }

/-- A frame agreeing with `testFrame` on `stack_service` only: its image and
audio stacks are nonempty. -/
def otherServiceFrame : mlt_frame_s Unit Unit Nat :=
  { testFrame with stack_image := [7], stack_audio := [8] }

end Mlt

namespace Mlt

/-! ## Sanity checks of the embedding -/

example : ((-7 : Int) / 1024) = -1 := by decide
example : RGB2YUV 0 0 91 = (24, 167, 121) := by decide
example : YUV2RGB 24 167 121 = (0, 0, 87) := by decide
example : RGB2YUV 255 255 0 = (209, 15, 146) := by decide
example : rgb2yuv_unscaled_y_pre 235 235 235 = 229 := by decide

/-! ## Claims about the color-conversion macros -/

/-- C1, counterexample: the input `(0,0,91)` has every channel in `[0,255]`
and its scaled `RGB2YUV` output is in-gamut, yet the `RGB2YUV`/`YUV2RGB`
round trip returns blue channel `87`, which differs from the original `91`
by more than `1`. -/
theorem roundtrip_error_exceeds_one :
    inGamut (RGB2YUV 0 0 91) ∧ roundtrip 0 0 91 = (0, 0, 87) ∧
      ¬ (91 - (roundtrip 0 0 91).2.2 ≤ 1) := by
  decide

set_option maxHeartbeats 2000000 in
/-- C1 (amended): for every RGB triple with each channel in `[0,255]` whose
scaled `RGB2YUV` output is in-gamut, converting with `RGB2YUV` and back with
`YUV2RGB` yields a triple whose each channel differs from the original by at
most `4` (not `1`: the fixed-point rounding error reaches `4`). -/
theorem roundtrip_within_four (r g b : Int)
    (hr0 : 0 ≤ r) (hr1 : r ≤ 255) (hg0 : 0 ≤ g) (hg1 : g ≤ 255)
    (hb0 : 0 ≤ b) (hb1 : b ≤ 255) (hgam : inGamut (RGB2YUV r g b)) :
    r - 4 ≤ (roundtrip r g b).1 ∧ (roundtrip r g b).1 ≤ r + 4 ∧
    g - 4 ≤ (roundtrip r g b).2.1 ∧ (roundtrip r g b).2.1 ≤ g + 4 ∧
    b - 4 ≤ (roundtrip r g b).2.2 ∧ (roundtrip r g b).2.2 ≤ b + 4 := by
  clear hgam
  simp only [roundtrip, RGB2YUV, YUV2RGB, rgb2yuv_y, rgb2yuv_u, rgb2yuv_v,
    yuv2rgb_r_pre, yuv2rgb_g_pre, yuv2rgb_b_pre, clamp255]
  split_ifs <;> omega

/-- C1, witness: the round-trip bound applied at the concrete in-gamut
input `(10,20,30)`. -/
theorem roundtrip_within_four_witness :
    inGamut (RGB2YUV 10 20 30) ∧
      (10 - 4 ≤ (roundtrip 10 20 30).1 ∧ (roundtrip 10 20 30).1 ≤ 10 + 4 ∧
       20 - 4 ≤ (roundtrip 10 20 30).2.1 ∧ (roundtrip 10 20 30).2.1 ≤ 20 + 4 ∧
       30 - 4 ≤ (roundtrip 10 20 30).2.2 ∧ (roundtrip 10 20 30).2.2 ≤ 30 + 4) :=
  ⟨by decide, roundtrip_within_four 10 20 30 (by decide) (by decide) (by decide)
    (by decide) (by decide) (by decide) (by decide)⟩

/-- C2, counterexample: the full-range input `(255,255,0)` makes `RGB2YUV`
produce chroma `u = 15`, outside the claimed broadcast-legal range
`[16,240]`. -/
theorem rgb2yuv_u_escapes_gamut :
    (RGB2YUV 255 255 0).2.1 = 15 ∧ ¬ inGamut (RGB2YUV 255 255 0) := by
  decide

/-- C2 (amended): for every RGB input with each channel in `[0,255]`, the
scaled `RGB2YUV` macro produces luma `y ∈ [16,235]` and chroma
`u, v ∈ [15,240]` (the chroma lower bound is `15`, not `16`: the floor in
the fixed-point arithmetic can undershoot by one). -/
theorem rgb2yuv_output_range (r g b : Int)
    (hr0 : 0 ≤ r) (hr1 : r ≤ 255) (hg0 : 0 ≤ g) (hg1 : g ≤ 255)
    (hb0 : 0 ≤ b) (hb1 : b ≤ 255) :
    16 ≤ (RGB2YUV r g b).1 ∧ (RGB2YUV r g b).1 ≤ 235 ∧
    15 ≤ (RGB2YUV r g b).2.1 ∧ (RGB2YUV r g b).2.1 ≤ 240 ∧
    15 ≤ (RGB2YUV r g b).2.2 ∧ (RGB2YUV r g b).2.2 ≤ 240 := by
  simp only [RGB2YUV, rgb2yuv_y, rgb2yuv_u, rgb2yuv_v]
  omega

/-- C2, witness: the output-range bound applied at the concrete full-range
input `(0,128,255)`. -/
theorem rgb2yuv_output_range_witness :
    16 ≤ (RGB2YUV 0 128 255).1 ∧ (RGB2YUV 0 128 255).1 ≤ 235 ∧
    15 ≤ (RGB2YUV 0 128 255).2.1 ∧ (RGB2YUV 0 128 255).2.1 ≤ 240 ∧
    15 ≤ (RGB2YUV 0 128 255).2.2 ∧ (RGB2YUV 0 128 255).2.2 ≤ 240 :=
  rgb2yuv_output_range 0 128 255 (by decide) (by decide) (by decide) (by decide)
    (by decide) (by decide)

/-- C3: for every integer RGB input, the `RGB2YUV_UNSCALED` macro's outputs
are clamped so that luma lies in `[16,235]` and each chroma channel lies in
`[16,240]`. -/
theorem rgb2yuv_unscaled_clamped (r g b : Int) :
    inGamut (RGB2YUV_UNSCALED r g b) := by
  simp only [inGamut, RGB2YUV_UNSCALED, clampLoHi, rgb2yuv_unscaled_y_pre,
    rgb2yuv_unscaled_u_pre, rgb2yuv_unscaled_v_pre]
  split_ifs <;> omega

/-- C4: for every integer YUV input, including out-of-range values, the
`YUV2RGB` macro produces `r`, `g`, `b` each clamped to `[0,255]`; and
whenever the unclamped fixed-point inverse values (1192/1024 luma gain,
BT.601 chroma coefficients, 10-bit shift) already lie in `[0,255]`, the
macro returns exactly those values. -/
theorem yuv2rgb_clamps_and_inverts :
    (∀ y u v : Int,
      0 ≤ (YUV2RGB y u v).1 ∧ (YUV2RGB y u v).1 ≤ 255 ∧
      0 ≤ (YUV2RGB y u v).2.1 ∧ (YUV2RGB y u v).2.1 ≤ 255 ∧
      0 ≤ (YUV2RGB y u v).2.2 ∧ (YUV2RGB y u v).2.2 ≤ 255) ∧
    (∀ y u v : Int,
      0 ≤ yuv2rgb_r_pre y u v → yuv2rgb_r_pre y u v ≤ 255 →
      0 ≤ yuv2rgb_g_pre y u v → yuv2rgb_g_pre y u v ≤ 255 →
      0 ≤ yuv2rgb_b_pre y u v → yuv2rgb_b_pre y u v ≤ 255 →
      YUV2RGB y u v =
        (yuv2rgb_r_pre y u v, yuv2rgb_g_pre y u v, yuv2rgb_b_pre y u v)) := by
  constructor
  · intro y u v
    simp only [YUV2RGB, clamp255]
    split_ifs <;> omega
  · intro y u v h1 h2 h3 h4 h5 h6
    simp only [YUV2RGB, clamp255, Prod.mk.injEq]
    split_ifs <;> omega

/-- C4, witness: the clamp range at the out-of-range input `(300,-5,700)`
and the inversion identity at the in-range input `(100,120,130)`. -/
theorem yuv2rgb_clamps_and_inverts_witness :
    (0 ≤ (YUV2RGB 300 (-5) 700).1 ∧ (YUV2RGB 300 (-5) 700).1 ≤ 255 ∧
     0 ≤ (YUV2RGB 300 (-5) 700).2.1 ∧ (YUV2RGB 300 (-5) 700).2.1 ≤ 255 ∧
     0 ≤ (YUV2RGB 300 (-5) 700).2.2 ∧ (YUV2RGB 300 (-5) 700).2.2 ≤ 255) ∧
    YUV2RGB 100 120 130 =
      (yuv2rgb_r_pre 100 120 130, yuv2rgb_g_pre 100 120 130,
       yuv2rgb_b_pre 100 120 130) :=
  ⟨yuv2rgb_clamps_and_inverts.1 300 (-5) 700,
   yuv2rgb_clamps_and_inverts.2 100 120 130 (by decide) (by decide) (by decide)
     (by decide) (by decide) (by decide)⟩

/-- C10: the luma coefficients of `RGB2YUV_UNSCALED` sum to `1000` rather
than `1024`, so for every gray broadcast-range input `r = g = b = c` with
`c ∈ [17,240]` the pre-clamp luma equals `(1000*c) >> 10`, strictly less
than `c`; in particular broadcast white `(235,235,235)` maps to luma `229`. -/
theorem unscaled_gray_luma_attenuated (c : Int) (h17 : 17 ≤ c) (h240 : c ≤ 240) :
    rgb2yuv_unscaled_y_pre c c c = 1000 * c / 1024 ∧
    rgb2yuv_unscaled_y_pre c c c < c ∧
    rgb2yuv_unscaled_y_pre 235 235 235 = 229 ∧
    (RGB2YUV_UNSCALED 235 235 235).1 = 229 := by
  refine ⟨?_, ?_, by decide, by decide⟩
  · simp only [rgb2yuv_unscaled_y_pre]
    omega
  · simp only [rgb2yuv_unscaled_y_pre]
    omega

/-- C10, witness: luma attenuation at the concrete gray level `100`. -/
theorem unscaled_gray_luma_attenuated_witness :
    (17 ≤ (100 : Int) ∧ (100 : Int) ≤ 240) ∧
      (rgb2yuv_unscaled_y_pre 100 100 100 = 1000 * 100 / 1024 ∧
       rgb2yuv_unscaled_y_pre 100 100 100 < 100 ∧
       rgb2yuv_unscaled_y_pre 235 235 235 = 229 ∧
       (RGB2YUV_UNSCALED 235 235 235).1 = 229) :=
  ⟨by decide, unscaled_gray_luma_attenuated 100 (by decide) (by decide)⟩

/-! ## Claims about the sample-count arithmetic -/

/-- C5: for every frame rate `F`, sample frequency `S` and `K ≥ 1`, the sum
of `mlt_sample_calculator F S i` for `i ∈ [0,K)` equals
`mlt_sample_calculator_to_now F S (K-1)` exactly — per-frame sample counts
accumulate with no drift. -/
theorem sample_counts_accumulate (fps : ℚ) (S : Int) (K : ℕ) (hK : 1 ≤ K) :
    (∑ i in Finset.range K, mlt_sample_calculator fps S (i : Int)) =
      mlt_sample_calculator_to_now fps S ((K : Int) - 1) := by
  induction K with
  | zero => exact absurd hK (by omega)
  | succ n ih =>
    rw [Finset.sum_range_succ]
    rcases Nat.eq_zero_or_pos n with h | h
    · subst h
      simp only [Finset.range_zero, Finset.sum_empty, zero_add,
        mlt_sample_calculator, Nat.cast_zero, Nat.cast_one]
      have h0 : mlt_sample_calculator_to_now fps S ((0 : Int) - 1) = 0 := by
        simp [mlt_sample_calculator_to_now]
      rw [h0]
      norm_num
    · rw [ih h]
      simp only [mlt_sample_calculator]
      have hc : ((n : Int) + 1) - 1 = (n : Int) := by ring
      push_cast
      rw [hc]
      ring

/-- C5, witness: drift-free accumulation at `F = 30000/1001` (NTSC),
`S = 44100`, `K = 4`. -/
theorem sample_counts_accumulate_witness :
    1 ≤ 4 ∧
      (∑ i in Finset.range 4,
          mlt_sample_calculator (30000 / 1001) 44100 (i : Int)) =
        mlt_sample_calculator_to_now (30000 / 1001) 44100 ((4 : Int) - 1) :=
  ⟨by decide, sample_counts_accumulate (30000 / 1001) 44100 4 (by decide)⟩

/-- C6: at frame rate `25` and frequency `48000`, the cumulative sample
count through frame position `24` — both as the sum of the per-frame counts
over `[0,25)` and as `mlt_sample_calculator_to_now 25 48000 24` — equals
exactly `48000`: one second elapsed. -/
theorem pal_one_second_samples :
    (∑ i in Finset.range 25, mlt_sample_calculator 25 48000 (i : Int)) = 48000 ∧
      mlt_sample_calculator_to_now 25 48000 24 = 48000 := by
  constructor
  · simp only [Finset.sum_range_succ, Finset.sum_range_zero,
      mlt_sample_calculator, mlt_sample_calculator_to_now]
    push_cast
    norm_num
  · simp only [mlt_sample_calculator_to_now]
    push_cast
    norm_num

/-! ## Claims about the operation stacks and the frame -/

theorem Stack.pushMany_eq_append {ι : Type} (s : Stack ι) (xs : List ι) :
    Stack.pushMany s xs = xs.reverse ++ s := by
  induction xs generalizing s with
  | nil => simp [Stack.pushMany]
  | cons x t ih =>
    simp only [Stack.pushMany, List.foldl_cons, List.reverse_cons,
      List.append_assoc, List.singleton_append]
    exact ih (Stack.push s x)

theorem Stack.popMany_append {ι : Type} (l rest : List ι) :
    Stack.popMany l.length (l ++ rest) = (l.map some, rest) := by
  induction l with
  | nil => simp [Stack.popMany]
  | cons x t ih => simp [Stack.popMany, Stack.pop, ih]

theorem Stack.popMany_exact {ι : Type} (l : List ι) :
    Stack.popMany l.length l = (l.map some, []) := by
  have h := Stack.popMany_append l []
  rwa [List.append_nil] at h

theorem Stack.popMany_reverse {ι : Type} (xs : List ι) :
    Stack.popMany xs.length xs.reverse = (xs.reverse.map some, []) := by
  have h := Stack.popMany_exact xs.reverse
  rwa [List.length_reverse] at h

theorem pushImageMany_spec {π κ ι : Type} (f : mlt_frame_s π κ ι) (xs : List ι) :
    pushImageMany f xs =
      { f with stack_image := Stack.pushMany f.stack_image xs } := by
  induction xs generalizing f with
  | nil => simp [pushImageMany, Stack.pushMany]
  | cons x t ih =>
    simp only [pushImageMany, List.foldl_cons, Stack.pushMany]
    exact ih (mlt_frame_push_get_image f x)

theorem popImageMany_spec {π κ ι : Type} (n : Nat) (f : mlt_frame_s π κ ι) :
    popImageMany n f =
      ((Stack.popMany n f.stack_image).1,
       { f with stack_image := (Stack.popMany n f.stack_image).2 }) := by
  induction n generalizing f with
  | zero => simp [popImageMany, Stack.popMany]
  | succ n ih =>
    simp only [popImageMany, Stack.popMany, mlt_frame_pop_get_image, ih]

theorem pushAudioMany_spec {π κ ι : Type} (f : mlt_frame_s π κ ι) (xs : List ι) :
    pushAudioMany f xs =
      { f with stack_audio := Stack.pushMany f.stack_audio xs } := by
  induction xs generalizing f with
  | nil => simp [pushAudioMany, Stack.pushMany]
  | cons x t ih =>
    simp only [pushAudioMany, List.foldl_cons, Stack.pushMany]
    exact ih (mlt_frame_push_audio f x)

theorem popAudioMany_spec {π κ ι : Type} (n : Nat) (f : mlt_frame_s π κ ι) :
    popAudioMany n f =
      ((Stack.popMany n f.stack_audio).1,
       { f with stack_audio := (Stack.popMany n f.stack_audio).2 }) := by
  induction n generalizing f with
  | zero => simp [popAudioMany, Stack.popMany]
  | succ n ih =>
    simp only [popAudioMany, Stack.popMany, mlt_frame_pop_audio, ih]

theorem pushServiceMany_spec {π κ ι : Type} (f : mlt_frame_s π κ ι) (xs : List ι) :
    pushServiceMany f xs =
      { f with stack_service := Stack.pushMany f.stack_service xs } := by
  induction xs generalizing f with
  | nil => simp [pushServiceMany, Stack.pushMany]
  | cons x t ih =>
    simp only [pushServiceMany, List.foldl_cons, Stack.pushMany]
    exact ih (mlt_frame_push_service f x)

theorem popServiceMany_spec {π κ ι : Type} (n : Nat) (f : mlt_frame_s π κ ι) :
    popServiceMany n f =
      ((Stack.popMany n f.stack_service).1,
       { f with stack_service := (Stack.popMany n f.stack_service).2 }) := by
  induction n generalizing f with
  | zero => simp [popServiceMany, Stack.popMany]
  | succ n ih =>
    simp only [popServiceMany, Stack.popMany, mlt_frame_pop_service, ih]

/-- C7: on a frame whose operation stacks start empty, `N` pushes followed by
`N` pops on any one of the three stacks (image, audio, service) return the
pushed entries in exact reverse push order, and the `(N+1)`-th pop returns
the empty-stack sentinel `none` (C `NULL`, the `EmptyStack` condition)
rather than undefined behavior. -/
theorem frame_stack_lifo {π κ ι : Type} (f : mlt_frame_s π κ ι) (xs : List ι)
    (hI : f.stack_image = []) (hA : f.stack_audio = [])
    (hS : f.stack_service = []) :
    ((popImageMany xs.length (pushImageMany f xs)).1 = xs.reverse.map some ∧
     (mlt_frame_pop_get_image (popImageMany xs.length (pushImageMany f xs)).2).1
       = none) ∧
    ((popAudioMany xs.length (pushAudioMany f xs)).1 = xs.reverse.map some ∧
     (mlt_frame_pop_audio (popAudioMany xs.length (pushAudioMany f xs)).2).1
       = none) ∧
    ((popServiceMany xs.length (pushServiceMany f xs)).1 = xs.reverse.map some ∧
     (mlt_frame_pop_service (popServiceMany xs.length (pushServiceMany f xs)).2).1
       = none) := by
  refine ⟨?_, ?_, ?_⟩
  · rw [pushImageMany_spec, popImageMany_spec]
    simp [hI, Stack.pushMany_eq_append, Stack.popMany_reverse,
      mlt_frame_pop_get_image, Stack.pop]
  · rw [pushAudioMany_spec, popAudioMany_spec]
    simp [hA, Stack.pushMany_eq_append, Stack.popMany_reverse,
      mlt_frame_pop_audio, Stack.pop]
  · rw [pushServiceMany_spec, popServiceMany_spec]
    simp [hS, Stack.pushMany_eq_append, Stack.popMany_reverse,
      mlt_frame_pop_service, Stack.pop]

/-- C7, witness: pushing `[1,2,3]` on each stack of a fresh frame and popping
three times yields `3,2,1`; the fourth pop yields the sentinel. -/
theorem frame_stack_lifo_witness :
    ((popImageMany ([1, 2, 3] : List Nat).length
        (pushImageMany testFrame [1, 2, 3])).1
          = ([1, 2, 3] : List Nat).reverse.map some ∧
     (mlt_frame_pop_get_image (popImageMany ([1, 2, 3] : List Nat).length
        (pushImageMany testFrame [1, 2, 3])).2).1 = none) ∧
    ((popAudioMany ([1, 2, 3] : List Nat).length
        (pushAudioMany testFrame [1, 2, 3])).1
          = ([1, 2, 3] : List Nat).reverse.map some ∧
     (mlt_frame_pop_audio (popAudioMany ([1, 2, 3] : List Nat).length
        (pushAudioMany testFrame [1, 2, 3])).2).1 = none) ∧
    ((popServiceMany ([1, 2, 3] : List Nat).length
        (pushServiceMany testFrame [1, 2, 3])).1
          = ([1, 2, 3] : List Nat).reverse.map some ∧
     (mlt_frame_pop_service (popServiceMany ([1, 2, 3] : List Nat).length
        (pushServiceMany testFrame [1, 2, 3])).2).1 = none) :=
  frame_stack_lifo testFrame [1, 2, 3] rfl rfl rfl

/-- C8: for every frame whose stored alpha channel, when present, is sized to
the image dimensions, `mlt_frame_get_alpha_mask` returns a mask of exactly
`width * height` bytes; when no alpha data exists, every byte of the returned
mask is the maximum `255`; and (dimensions being positive) the result is
never the `NULL` sentinel or empty. -/
theorem alpha_mask_total_and_opaque (f : FrameImageState)
    (hsize : ∀ a, f.alpha = some a → a.length = f.width * f.height)
    (hpos : 0 < f.width * f.height) :
    (mlt_frame_get_alpha_mask f).length = f.width * f.height ∧
    (f.alpha = none → ∀ x ∈ mlt_frame_get_alpha_mask f, x = 255) ∧
    mlt_frame_get_alpha_mask f ≠ [] := by
  rcases h : f.alpha with _ | a
  · refine ⟨?_, ?_, ?_⟩
    · simp [mlt_frame_get_alpha_mask, h]
    · intro _ x hx
      simp only [mlt_frame_get_alpha_mask, h] at hx
      exact List.eq_of_mem_replicate hx
    · have : (mlt_frame_get_alpha_mask f).length ≠ 0 := by
        simp only [mlt_frame_get_alpha_mask, h, List.length_replicate]
        omega
      intro hnil
      exact this (by rw [hnil]; rfl)
  · have ha := hsize a h
    refine ⟨?_, ?_, ?_⟩
    · simp [mlt_frame_get_alpha_mask, h, ha]
    · intro hnone
      exact absurd hnone (by simp)
    · have : (mlt_frame_get_alpha_mask f).length ≠ 0 := by
        simp only [mlt_frame_get_alpha_mask, h, ha]
        omega
      intro hnil
      exact this (by rw [hnil]; rfl)

/-- C8, witness: a 2×3 frame with no alpha data yields a 6-byte fully-opaque
mask. -/
theorem alpha_mask_total_and_opaque_witness :
    (mlt_frame_get_alpha_mask ⟨2, 3, none⟩).length = 2 * 3 ∧
    ((⟨2, 3, none⟩ : FrameImageState).alpha = none →
      ∀ x ∈ mlt_frame_get_alpha_mask ⟨2, 3, none⟩, x = 255) ∧
    mlt_frame_get_alpha_mask ⟨2, 3, none⟩ ≠ [] :=
  alpha_mask_total_and_opaque ⟨2, 3, none⟩ (fun _ h => Option.noConfusion h)
    (by decide)

/-- C9: every push or pop on one of a frame's three stacks leaves the other
two stacks unchanged; and the operation does not read the other two stacks:
whenever two frames agree on the operated stack alone — they may differ
arbitrarily on the other two — the popped value and the resulting operated
stack are equal. -/
theorem frame_stacks_independent {π κ ι : Type} (f f' : mlt_frame_s π κ ι)
    (x : ι) :
    ((mlt_frame_push_get_image f x).stack_audio = f.stack_audio ∧
     (mlt_frame_push_get_image f x).stack_service = f.stack_service) ∧
    ((mlt_frame_pop_get_image f).2.stack_audio = f.stack_audio ∧
     (mlt_frame_pop_get_image f).2.stack_service = f.stack_service) ∧
    ((mlt_frame_push_audio f x).stack_image = f.stack_image ∧
     (mlt_frame_push_audio f x).stack_service = f.stack_service) ∧
    ((mlt_frame_pop_audio f).2.stack_image = f.stack_image ∧
     (mlt_frame_pop_audio f).2.stack_service = f.stack_service) ∧
    ((mlt_frame_push_service f x).stack_image = f.stack_image ∧
     (mlt_frame_push_service f x).stack_audio = f.stack_audio) ∧
    ((mlt_frame_pop_service f).2.stack_image = f.stack_image ∧
     (mlt_frame_pop_service f).2.stack_audio = f.stack_audio) ∧
    (f.stack_image = f'.stack_image →
      (mlt_frame_pop_get_image f).1 = (mlt_frame_pop_get_image f').1 ∧
      (mlt_frame_pop_get_image f).2.stack_image
        = (mlt_frame_pop_get_image f').2.stack_image ∧
      (mlt_frame_push_get_image f x).stack_image
        = (mlt_frame_push_get_image f' x).stack_image) ∧
    (f.stack_audio = f'.stack_audio →
      (mlt_frame_pop_audio f).1 = (mlt_frame_pop_audio f').1 ∧
      (mlt_frame_pop_audio f).2.stack_audio
        = (mlt_frame_pop_audio f').2.stack_audio ∧
      (mlt_frame_push_audio f x).stack_audio
        = (mlt_frame_push_audio f' x).stack_audio) ∧
    (f.stack_service = f'.stack_service →
      (mlt_frame_pop_service f).1 = (mlt_frame_pop_service f').1 ∧
      (mlt_frame_pop_service f).2.stack_service
        = (mlt_frame_pop_service f').2.stack_service ∧
      (mlt_frame_push_service f x).stack_service
        = (mlt_frame_push_service f' x).stack_service) := by
  refine ⟨⟨rfl, rfl⟩, ⟨rfl, rfl⟩, ⟨rfl, rfl⟩, ⟨rfl, rfl⟩, ⟨rfl, rfl⟩,
    ⟨rfl, rfl⟩, ?_, ?_, ?_⟩
  · intro hI
    simp [mlt_frame_pop_get_image, mlt_frame_push_get_image, hI]
  · intro hA
    simp [mlt_frame_pop_audio, mlt_frame_push_audio, hA]
  · intro hS
    simp [mlt_frame_pop_service, mlt_frame_push_service, hS]

/-- C9, witness: a fresh frame compared against three frames each of which
agrees with it on exactly one stack and carries different, nonempty contents
on the other two: the operations still leave the other stacks of the fresh
frame unchanged and return results determined by the operated stack alone. -/
theorem frame_stacks_independent_witness :
    ((mlt_frame_push_get_image testFrame 5).stack_audio = testFrame.stack_audio ∧
     (mlt_frame_push_get_image testFrame 5).stack_service
       = testFrame.stack_service) ∧
    ((mlt_frame_pop_get_image testFrame).2.stack_audio = testFrame.stack_audio ∧
     (mlt_frame_pop_get_image testFrame).2.stack_service
       = testFrame.stack_service) ∧
    ((mlt_frame_push_audio testFrame 5).stack_image = testFrame.stack_image ∧
     (mlt_frame_push_audio testFrame 5).stack_service
       = testFrame.stack_service) ∧
    ((mlt_frame_pop_audio testFrame).2.stack_image = testFrame.stack_image ∧
     (mlt_frame_pop_audio testFrame).2.stack_service
       = testFrame.stack_service) ∧
    ((mlt_frame_push_service testFrame 5).stack_image = testFrame.stack_image ∧
     (mlt_frame_push_service testFrame 5).stack_audio
       = testFrame.stack_audio) ∧
    ((mlt_frame_pop_service testFrame).2.stack_image = testFrame.stack_image ∧
     (mlt_frame_pop_service testFrame).2.stack_audio
       = testFrame.stack_audio) ∧
    ((mlt_frame_pop_get_image testFrame).1
       = (mlt_frame_pop_get_image otherImageFrame).1 ∧
     (mlt_frame_pop_get_image testFrame).2.stack_image
       = (mlt_frame_pop_get_image otherImageFrame).2.stack_image ∧
     (mlt_frame_push_get_image testFrame 5).stack_image
       = (mlt_frame_push_get_image otherImageFrame 5).stack_image) ∧
    ((mlt_frame_pop_audio testFrame).1
       = (mlt_frame_pop_audio otherAudioFrame).1 ∧
     (mlt_frame_pop_audio testFrame).2.stack_audio
       = (mlt_frame_pop_audio otherAudioFrame).2.stack_audio ∧
     (mlt_frame_push_audio testFrame 5).stack_audio
       = (mlt_frame_push_audio otherAudioFrame 5).stack_audio) ∧
    ((mlt_frame_pop_service testFrame).1
       = (mlt_frame_pop_service otherServiceFrame).1 ∧
     (mlt_frame_pop_service testFrame).2.stack_service
       = (mlt_frame_pop_service otherServiceFrame).2.stack_service ∧
     (mlt_frame_push_service testFrame 5).stack_service
       = (mlt_frame_push_service otherServiceFrame 5).stack_service) :=
  ⟨(frame_stacks_independent testFrame otherImageFrame 5).1,
   (frame_stacks_independent testFrame otherImageFrame 5).2.1,
   (frame_stacks_independent testFrame otherImageFrame 5).2.2.1,
   (frame_stacks_independent testFrame otherImageFrame 5).2.2.2.1,
   (frame_stacks_independent testFrame otherImageFrame 5).2.2.2.2.1,
   (frame_stacks_independent testFrame otherImageFrame 5).2.2.2.2.2.1,
   (frame_stacks_independent testFrame otherImageFrame 5).2.2.2.2.2.2.1 rfl,
   (frame_stacks_independent testFrame otherAudioFrame 5).2.2.2.2.2.2.2.1 rfl,
   (frame_stacks_independent testFrame otherServiceFrame 5).2.2.2.2.2.2.2.2 rfl⟩

end Mlt
